import Mathlib

/-!
Verification of the co-snarks orchestration pipeline (`co-noir` CLI binary and
the Groth16 zkey header parser) against its natural-language specification.

The Rust entry points of `co-noir/src/bin/co-noir.rs` are shallowly embedded as
pure Lean functions.  Every fallible external step (file parsing, network
connection, the collective MPC sub-protocols) is passed in as an explicit
`Except`/`Option` argument, so each embedded stage is a function from the
outcomes of its external collaborators to its own result.  Each stage also
returns the ordered list of observable I/O events it performed (file reads,
network connections, artifact writes), which lets the fail-fast ordering
contracts of the specification be stated precisely.

Rust `panic!`/`expect`/`assert` aborts are modelled by the `crashed`
constructor of `Outcome`, distinct from typed `err` results.
-/

/-- The two MPC protocols selectable on the co-noir command line. -/
inductive MPCProtocol : Type
  | REP3 : MPCProtocol
  | SHAMIR : MPCProtocol
deriving DecidableEq, Repr

/-- Process exit statuses produced by the stage entry points
(`ExitCode::SUCCESS` / `ExitCode::FAILURE` in the binary). -/
inductive StageExit : Type
  | success : StageExit
  | failure : StageExit
deriving DecidableEq, Repr

/-- The error values produced by the guards inside the co-noir stage functions
(each constructor corresponds to one `eyre!`/`context` error site). -/
inductive Err : Type
  | fileNotFound : Err
  | dirNotFound : Err
  | pubIndexOutOfBounds : Err
  | rep3ThresholdNotOne : Err
  | rep3PartiesNotThree : Err
  | onlyRep3SplitInput : Err
  | onlyRep3MergeInput : Err
  | onlyRep3GenerateWitness : Err
  | onlyRep3ToShamir : Err
  | tooFewShares : Err
  | duplicateWitness : Err
  | parseFailed : Err
  | netFailed : Err
  | preprocessFailed : Err
  | translateFailed : Err
  | proveFailed : Err
  | verifyFailed : Err
deriving DecidableEq, Repr

/-- Observable I/O events of one stage invocation, in the order the stage
performs them: reads of input artifacts, network connections, and writes of
output artifacts. -/
inductive Event : Type
  | readCircuit : Event
  | readWitness : Event
  | openWitness : Event
  | readInput : Nat → Event
  | readCrs : Event
  | readVk : Event
  | readProof : Event
  | netConnect : Event
  | writeShare : Nat → Event
  | writeOut : Event
  | writeProof : Event
  | writePublicInput : Event
deriving DecidableEq, Repr

/-- Result of a Rust function that may return a typed error or abort the
process through a panic (`expect` / `assert_eq`). -/
inductive Outcome (ε : Type) (α : Type) : Type
  | ok : α → Outcome ε α
  | err : ε → Outcome ε α
  | crashed : Outcome ε α
deriving DecidableEq, Repr

/-- Modelled from the spec: `PubShared` (co-noir library, not under `src/`) is
the tagged union over a witness slot, `Public(value)` known in cleartext or
`Shared(value)` to be secret-shared (spec section 3, `PubOrShared`). -/
inductive PubShared (F : Type) : Type
  | Public : F → PubShared F
  | Shared : F → PubShared F
deriving DecidableEq, Repr

/-- Modelled from the spec: `PubShared::from_shared` wraps a cleartext value as
a (to be) shared slot. -/
def PubShared.fromShared {F : Type} (f : F) : PubShared F :=
  PubShared.Shared f

/-- Modelled from the spec: `PubShared::set_public` promotes a slot to
`Public`, keeping its value (spec section 3: a slot listed as a public input
is promoted from `Shared` to `Public` at split time, never the reverse). -/
def PubShared.setPublic {F : Type} : PubShared F → PubShared F
  | PubShared.Public f => PubShared.Public f
  | PubShared.Shared f => PubShared.Public f

/-- The loop of `run_split_witness` marking each declared public-input index
as `Public`, failing when an index is out of bounds
(`co-noir.rs` lines 152-158). -/
def setPublicAll {F : Type} (ws : List (PubShared F)) : List Nat → Except Err (List (PubShared F))
  | [] => Except.ok ws
  | i :: rest =>
    if h : i < ws.length then
      setPublicAll (ws.set i (ws[i].setPublic)) rest
    else
      Except.error Err.pubIndexOutOfBounds

/-- Witness classification of `run_split_witness`: wrap every slot as `Shared`,
then promote the declared public indices (`co-noir.rs` lines 148-158). -/
def classifyWitness {F : Type} (w : List F) (pubs : List Nat) : Except Err (List (PubShared F)) :=
  setPublicAll (w.map PubShared.fromShared) pubs

/-- The share files written by a splitting stage: one `writeShare i` event per
produced party share (`co-noir.rs` lines 182-189 / 204-211). -/
def writeEvents (n : Nat) : List Event :=
  (List.range n).map Event.writeShare

/-- External inputs of `run_split_witness` (`co-noir.rs` lines 127-216):
file-existence checks, the parse results of the circuit and witness files, and
the scheme parameters from the command line. -/
structure SplitWitnessIn (F : Type) : Type where
  witnessPresent : Bool
  circuitPresent : Bool
  outDirPresent : Bool
  csParse : Except Err (List Nat)
  witnessParse : Except Err (List F)
  protocol : MPCProtocol
  t : Nat
  n : Nat

/-- Embedding of `run_split_witness` (`co-noir.rs` lines 127-216).
`shareRep3Fn` and `shareShamirFn` stand for the external sharing engines
`share_rep3` / `share_shamir` (randomness absorbed into the function); the
stage writes one share file per element of their result. -/
def run_split_witness {F S : Type} (shareRep3Fn : List (PubShared F) → List S)
    (shareShamirFn : List (PubShared F) → Nat → Nat → List S)
    (inp : SplitWitnessIn F) : Except Err StageExit × List Event :=
  if inp.witnessPresent = false then (Except.error Err.fileNotFound, [])
  else if inp.circuitPresent = false then (Except.error Err.fileNotFound, [])
  else if inp.outDirPresent = false then (Except.error Err.dirNotFound, [])
  else
    match inp.csParse with
    | Except.error e => (Except.error e, [Event.readCircuit])
    | Except.ok pubs =>
      match inp.witnessParse with
      | Except.error e => (Except.error e, [Event.readCircuit, Event.readWitness])
      | Except.ok w =>
        match classifyWitness w pubs with
        | Except.error e => (Except.error e, [Event.readCircuit, Event.readWitness])
        | Except.ok cw =>
          match inp.protocol with
          | MPCProtocol.REP3 =>
            if inp.t ≠ 1 then
              (Except.error Err.rep3ThresholdNotOne, [Event.readCircuit, Event.readWitness])
            else if inp.n ≠ 3 then
              (Except.error Err.rep3PartiesNotThree, [Event.readCircuit, Event.readWitness])
            else
              (Except.ok StageExit.success,
                [Event.readCircuit, Event.readWitness] ++ writeEvents (shareRep3Fn cw).length)
          | MPCProtocol.SHAMIR =>
            (Except.ok StageExit.success,
              [Event.readCircuit, Event.readWitness] ++
                writeEvents (shareShamirFn cw inp.t inp.n).length)

/-- External inputs of `run_split_input` (`co-noir.rs` lines 219-267). -/
structure SplitInputIn (F : Type) : Type where
  protocol : MPCProtocol
  inputPresent : Bool
  circuitPresent : Bool
  outDirPresent : Bool
  programParse : Except Err Unit
  abiRead : Except Err (List F)

/-- Embedding of `run_split_input` (`co-noir.rs` lines 219-267): the protocol
guard runs first, before any file is checked, opened or read. -/
def run_split_input {F S : Type} (shareInputFn : List F → List S)
    (inp : SplitInputIn F) : Except Err StageExit × List Event :=
  if inp.protocol ≠ MPCProtocol.REP3 then (Except.error Err.onlyRep3SplitInput, [])
  else if inp.inputPresent = false then (Except.error Err.fileNotFound, [])
  else if inp.circuitPresent = false then (Except.error Err.fileNotFound, [])
  else if inp.outDirPresent = false then (Except.error Err.dirNotFound, [])
  else
    match inp.programParse with
    | Except.error e => (Except.error e, [Event.readCircuit])
    | Except.ok _ =>
      match inp.abiRead with
      | Except.error e => (Except.error e, [Event.readCircuit, Event.readInput 0])
      | Except.ok ins =>
        (Except.ok StageExit.success,
          [Event.readCircuit, Event.readInput 0] ++ writeEvents (shareInputFn ins).length)

/-- One contributor share file passed to `run_merge_input_shares`: its
existence-check result and its deserialized `BTreeMap` content. -/
structure MergeFile (K V : Type) : Type where
  present : Bool
  parse : Except Err (List (K × V))

/-- The key list of an association-list-represented `BTreeMap`. -/
def keysOf {K V : Type} (m : List (K × V)) : List K :=
  m.map Prod.fst

/-- Strictly-sorted-keys invariant of the association lists representing
`BTreeMap`s. -/
def SortedKeys {K V : Type} [LinearOrder K] (m : List (K × V)) : Prop :=
  List.Pairwise (fun p q : K × V => p.1 < q.1) m

/-- Key-uniqueness invariant of a deserialized `BTreeMap`. -/
def KeysNodup {K V : Type} (m : List (K × V)) : Prop :=
  (keysOf m).Nodup

/-- `BTreeMap::insert` on the sorted association-list representation: place the
entry at its key position, replacing an existing entry with the same key. -/
def insertSorted {K V : Type} [LinearOrder K] (k : K) (v : V) : List (K × V) → List (K × V)
  | [] => [(k, v)]
  | p :: rest =>
    if k < p.1 then (k, v) :: p :: rest
    else if k = p.1 then (k, v) :: rest
    else p :: insertSorted k v rest

/-- The per-entry body of the merge loop (`co-noir.rs` lines 304-309): fail on
an already-present key, otherwise insert. -/
def insertChecked {K V : Type} [LinearOrder K] (acc : List (K × V)) (p : K × V) :
    Except Err (List (K × V)) :=
  if p.1 ∈ keysOf acc then Except.error Err.duplicateWitness
  else Except.ok (insertSorted p.1 p.2 acc)

/-- The inner merge loop over one contributor map (`co-noir.rs` lines
304-309). -/
def insertListChecked {K V : Type} [LinearOrder K] (acc : List (K × V)) :
    List (K × V) → Except Err (List (K × V))
  | [] => Except.ok acc
  | p :: rest =>
    match insertChecked acc p with
    | Except.error e => Except.error e
    | Except.ok acc2 => insertListChecked acc2 rest

/-- The outer merge loop over the contributor maps (`co-noir.rs` lines
303-310). -/
def mergeLoop {K V : Type} [LinearOrder K] (acc : List (K × V)) :
    List (List (K × V)) → Except Err (List (K × V))
  | [] => Except.ok acc
  | m :: ms =>
    match insertListChecked acc m with
    | Except.error e => Except.error e
    | Except.ok acc2 => mergeLoop acc2 ms

/-- The merge accumulation of `run_merge_input_shares`, starting from the empty
`BTreeMap` (`co-noir.rs` lines 301-310). -/
def mergeMaps {K V : Type} [LinearOrder K] (maps : List (List (K × V))) :
    Except Err (List (K × V)) :=
  mergeLoop [] maps

/-- The deserialization loop of `run_merge_input_shares` (`co-noir.rs` lines
288-300), reading the contributor files in order and aborting on the first
parse failure. -/
def readShares {K V : Type} (i : Nat) :
    List (MergeFile K V) → Except Err (List (List (K × V))) × List Event
  | [] => (Except.ok [], [])
  | f :: rest =>
    match f.parse with
    | Except.error e => (Except.error e, [Event.readInput i])
    | Except.ok m =>
      match readShares (i + 1) rest with
      | (Except.error e, tr) => (Except.error e, Event.readInput i :: tr)
      | (Except.ok ms, tr) => (Except.ok (m :: ms), Event.readInput i :: tr)

/-- Embedding of `run_merge_input_shares` (`co-noir.rs` lines 270-321):
protocol guard, contributor-count guard, existence checks, deserialization,
merge, write. -/
def run_merge_input_shares {K V : Type} [LinearOrder K] (protocol : MPCProtocol)
    (files : List (MergeFile K V)) : Except Err (List (K × V)) × List Event :=
  if protocol ≠ MPCProtocol.REP3 then (Except.error Err.onlyRep3MergeInput, [])
  else if files.length < 2 then (Except.error Err.tooFewShares, [])
  else if files.all (fun f => f.present) = false then (Except.error Err.fileNotFound, [])
  else
    match readShares 0 files with
    | (Except.error e, tr) => (Except.error e, tr)
    | (Except.ok maps, tr) =>
      match mergeMaps maps with
      | Except.error e => (Except.error e, tr)
      | Except.ok res => (Except.ok res, tr ++ [Event.writeOut])

/-- External inputs of `run_generate_witness` (`co-noir.rs` lines 324-375). -/
structure GenerateWitnessIn : Type where
  protocol : MPCProtocol
  inputPresent : Bool
  circuitPresent : Bool
  programParse : Except Err Unit
  shareRead : Except Err Unit
  abiTranslate : Except Err Unit
  net : Except Err Unit
  vmCreate : Except Err Unit
  solveRun : Except Err Unit

/-- Embedding of `run_generate_witness` (`co-noir.rs` lines 324-375): the
protocol guard runs first, before any file is checked, opened or read. -/
def run_generate_witness (inp : GenerateWitnessIn) : Except Err StageExit × List Event :=
  if inp.protocol ≠ MPCProtocol.REP3 then (Except.error Err.onlyRep3GenerateWitness, [])
  else if inp.inputPresent = false then (Except.error Err.fileNotFound, [])
  else if inp.circuitPresent = false then (Except.error Err.fileNotFound, [])
  else
    match inp.programParse with
    | Except.error e => (Except.error e, [Event.readCircuit])
    | Except.ok _ =>
      match inp.shareRead with
      | Except.error e => (Except.error e, [Event.readCircuit, Event.readInput 0])
      | Except.ok _ =>
        match inp.abiTranslate with
        | Except.error e => (Except.error e, [Event.readCircuit, Event.readInput 0])
        | Except.ok _ =>
          match inp.net with
          | Except.error e =>
            (Except.error e, [Event.readCircuit, Event.readInput 0, Event.netConnect])
          | Except.ok _ =>
            match inp.vmCreate with
            | Except.error e =>
              (Except.error e, [Event.readCircuit, Event.readInput 0, Event.netConnect])
            | Except.ok _ =>
              match inp.solveRun with
              | Except.error e =>
                (Except.error e, [Event.readCircuit, Event.readInput 0, Event.netConnect])
              | Except.ok _ =>
                (Except.ok StageExit.success,
                  [Event.readCircuit, Event.readInput 0, Event.netConnect, Event.writeOut])

/-- The `SharedBuilderVariable` witness-slot type of the co-ultrahonk builder:
a slot is either a public value or one party's share. -/
inductive SharedBuilderVariable (P S : Type) : Type
  | Public : P → SharedBuilderVariable P S
  | Shared : S → SharedBuilderVariable P S
deriving DecidableEq, Repr

/-- Whether a builder slot is a shared (secret) slot. -/
def SharedBuilderVariable.isSharedVar {P S : Type} : SharedBuilderVariable P S → Bool
  | SharedBuilderVariable.Public _ => false
  | SharedBuilderVariable.Shared _ => true

/-- The share-extraction loop of `run_translate_witness` (`co-noir.rs` lines
396-401): collect the payloads of the `Shared` slots in input order. -/
def extractShares {P S : Type} : List (SharedBuilderVariable P S) → List S
  | [] => []
  | SharedBuilderVariable.Public _ :: rest => extractShares rest
  | SharedBuilderVariable.Shared s :: rest => s :: extractShares rest

/-- Modelled from the spec: `ShamirProtocol::translate_primefield_repshare_vec`
(mpc-core, not under `src/`) translates each REP3 share of the input vector
into one Shamir share, output preserving input order 1:1 (spec section 4.5).
`tr` is the per-share translation performed by the resharing protocol. -/
def translate_primefield_repshare_vec {S T : Type} (tr : S → T) (shares : List S) : List T :=
  shares.map tr

/-- The reassembly loop of `run_translate_witness` (`co-noir.rs` lines
420-434): copy `Public` slots verbatim and fill each `Shared` slot with the
next translated share; `none` models the `expect("enough shares")` panic. -/
def rebuildShares {P S T : Type} :
    List (SharedBuilderVariable P S) → List T → Option (List (SharedBuilderVariable P T))
  | [], _ => some []
  | SharedBuilderVariable.Public v :: rest, ts =>
    (rebuildShares rest ts).map (fun rs => SharedBuilderVariable.Public v :: rs)
  | SharedBuilderVariable.Shared _ :: rest, t :: ts =>
    (rebuildShares rest ts).map (fun rs => SharedBuilderVariable.Shared t :: rs)
  | SharedBuilderVariable.Shared _ :: _, [] => none

/-- External inputs of `run_translate_witness` (`co-noir.rs` lines 378-441). -/
structure TranslateWitnessIn (P S : Type) : Type where
  src : MPCProtocol
  tgt : MPCProtocol
  witnessPresent : Bool
  witnessParse : Except Err (List (SharedBuilderVariable P S))
  net : Except Err Unit
  preprocess : Except Err Unit
  translateRun : Except Err Unit

/-- Embedding of `run_translate_witness` (`co-noir.rs` lines 378-441): the
source/target protocol guard runs first, before the witness file is touched
and before the network connection is opened. -/
def run_translate_witness {P S T : Type} (tr : S → T) (inp : TranslateWitnessIn P S) :
    Outcome Err (List (SharedBuilderVariable P T)) × List Event :=
  if inp.src ≠ MPCProtocol.REP3 ∨ inp.tgt ≠ MPCProtocol.SHAMIR then
    (Outcome.err Err.onlyRep3ToShamir, [])
  else if inp.witnessPresent = false then (Outcome.err Err.fileNotFound, [])
  else
    match inp.witnessParse with
    | Except.error e => (Outcome.err e, [Event.readWitness])
    | Except.ok ws =>
      match inp.net with
      | Except.error e => (Outcome.err e, [Event.readWitness, Event.netConnect])
      | Except.ok _ =>
        match inp.preprocess with
        | Except.error e => (Outcome.err e, [Event.readWitness, Event.netConnect])
        | Except.ok _ =>
          match inp.translateRun with
          | Except.error e => (Outcome.err e, [Event.readWitness, Event.netConnect])
          | Except.ok _ =>
            match rebuildShares ws (translate_primefield_repshare_vec tr (extractShares ws)) with
            | none => (Outcome.crashed, [Event.readWitness, Event.netConnect])
            | some rs => (Outcome.ok rs, [Event.readWitness, Event.netConnect, Event.writeOut])

/-- External inputs of `run_generate_proof` (`co-noir.rs` lines 444-619).
`preprocess` is the outcome of `ShamirPreprocessing::new` as a function of the
threshold `t`. -/
structure GenerateProofIn : Type where
  witnessPresent : Bool
  circuitPresent : Bool
  crsPresent : Bool
  witnessOpen : Except Err Unit
  csParse : Except Err Unit
  protocol : MPCProtocol
  t : Nat
  witnessDeser : Except Err Unit
  net : Except Err Unit
  crsGet : Option Unit
  preprocess : Nat → Except Err Unit
  proveRun : Except Err Unit
  outRequested : Bool
  pubRequested : Bool

/-- The output writes at the end of `run_generate_proof` (`co-noir.rs` lines
581-618): the proof file and the public-input listing, each only when
requested. -/
def proofWrites (inp : GenerateProofIn) (tr : List Event) : Outcome Err Unit × List Event :=
  (Outcome.ok (),
    tr ++ (if inp.outRequested then [Event.writeProof] else []) ++
      (if inp.pubRequested then [Event.writePublicInput] else []))

/-- Embedding of `run_generate_proof` (`co-noir.rs` lines 444-619).  In the
REP3 branch the threshold guard `t = 1` runs before deserialization and before
the network connection; the SHAMIR branch has no scheme-parameter guard at all
and connects to the network right after deserializing the witness share, with
the threshold first used by the Shamir preprocessing after that. -/
def run_generate_proof (inp : GenerateProofIn) : Outcome Err Unit × List Event :=
  if inp.witnessPresent = false then (Outcome.err Err.fileNotFound, [])
  else if inp.circuitPresent = false then (Outcome.err Err.fileNotFound, [])
  else if inp.crsPresent = false then (Outcome.err Err.fileNotFound, [])
  else
    match inp.witnessOpen with
    | Except.error e => (Outcome.err e, [Event.openWitness])
    | Except.ok _ =>
      match inp.csParse with
      | Except.error e => (Outcome.err e, [Event.openWitness, Event.readCircuit])
      | Except.ok _ =>
        match inp.protocol with
        | MPCProtocol.REP3 =>
          if inp.t ≠ 1 then
            (Outcome.err Err.rep3ThresholdNotOne, [Event.openWitness, Event.readCircuit])
          else
            match inp.witnessDeser with
            | Except.error e =>
              (Outcome.err e, [Event.openWitness, Event.readCircuit, Event.readWitness])
            | Except.ok _ =>
              match inp.net with
              | Except.error e =>
                (Outcome.err e,
                  [Event.openWitness, Event.readCircuit, Event.readWitness, Event.netConnect])
              | Except.ok _ =>
                match inp.crsGet with
                | none =>
                  (Outcome.crashed,
                    [Event.openWitness, Event.readCircuit, Event.readWitness, Event.netConnect,
                      Event.readCrs])
                | some _ =>
                  match inp.proveRun with
                  | Except.error e =>
                    (Outcome.err e,
                      [Event.openWitness, Event.readCircuit, Event.readWitness, Event.netConnect,
                        Event.readCrs])
                  | Except.ok _ =>
                    proofWrites inp
                      [Event.openWitness, Event.readCircuit, Event.readWitness, Event.netConnect,
                        Event.readCrs]
        | MPCProtocol.SHAMIR =>
          match inp.witnessDeser with
          | Except.error e =>
            (Outcome.err e, [Event.openWitness, Event.readCircuit, Event.readWitness])
          | Except.ok _ =>
            match inp.net with
            | Except.error e =>
              (Outcome.err e,
                [Event.openWitness, Event.readCircuit, Event.readWitness, Event.netConnect])
            | Except.ok _ =>
              match inp.crsGet with
              | none =>
                (Outcome.crashed,
                  [Event.openWitness, Event.readCircuit, Event.readWitness, Event.netConnect,
                    Event.readCrs])
              | some _ =>
                match inp.preprocess inp.t with
                | Except.error e =>
                  (Outcome.err e,
                    [Event.openWitness, Event.readCircuit, Event.readWitness, Event.netConnect,
                      Event.readCrs])
                | Except.ok _ =>
                  match inp.proveRun with
                  | Except.error e =>
                    (Outcome.err e,
                      [Event.openWitness, Event.readCircuit, Event.readWitness, Event.netConnect,
                        Event.readCrs])
                  | Except.ok _ =>
                    proofWrites inp
                      [Event.openWitness, Event.readCircuit, Event.readWitness, Event.netConnect,
                        Event.readCrs]

/-- The BN254 scalar-field modulus (`ark_bn254::Fr`), the field of the public
inputs written by `run_generate_proof`. -/
def bn254ScalarMod : Nat :=
  21888242871839275222246405745257275088548364400416034343698204186575808495617

/-- The witness field of the co-noir pipeline, `ark_bn254::Fr`, as the integers
modulo the BN254 scalar modulus. -/
abbrev FrBn : Type := ZMod bn254ScalarMod

/-- The per-slot rendering of a public input inside `run_generate_proof`
(`co-noir.rs` lines 596-603): the literal string `"0"` for the additive
identity, otherwise the decimal string of the canonical representative
(arkworks `Display`). -/
def fieldString (x : FrBn) : String :=
  if x = 0 then "0" else Nat.repr x.val

/-- The public-input listing of `run_generate_proof` (`co-noir.rs` lines
594-604): the input-order map of `fieldString` over the public witness
slots. -/
def publicInputAsStrings (xs : List FrBn) : List String :=
  xs.map fieldString

/-- External inputs of `run_verify` (`co-noir.rs` lines 669-708). -/
structure VerifyIn (Pf Crs Vkb : Type) : Type where
  proofPresent : Bool
  vkPresent : Bool
  crsPresent : Bool
  proofParse : Except Err Pf
  crsGet : Option Crs
  vkParse : Except Err Vkb

/-- Embedding of `run_verify` (`co-noir.rs` lines 669-708).  `verifyFn` is the
external UltraHonk verifier; a `false` verification result is returned as the
non-error exit value `StageExit.failure`, distinct from every `err` and
`crashed` outcome. -/
def run_verify {Pf Crs Vkb : Type} (verifyFn : Pf → Vkb → Crs → Except Err Bool)
    (inp : VerifyIn Pf Crs Vkb) : Outcome Err StageExit × List Event :=
  if inp.proofPresent = false then (Outcome.err Err.fileNotFound, [])
  else if inp.vkPresent = false then (Outcome.err Err.fileNotFound, [])
  else if inp.crsPresent = false then (Outcome.err Err.fileNotFound, [])
  else
    match inp.proofParse with
    | Except.error e => (Outcome.err e, [Event.readProof])
    | Except.ok pf =>
      match inp.crsGet with
      | none => (Outcome.crashed, [Event.readProof, Event.readCrs])
      | some crs =>
        match inp.vkParse with
        | Except.error e => (Outcome.err e, [Event.readProof, Event.readCrs, Event.readVk])
        | Except.ok vkb =>
          match verifyFn pf vkb crs with
          | Except.error e => (Outcome.err e, [Event.readProof, Event.readCrs, Event.readVk])
          | Except.ok true =>
            (Outcome.ok StageExit.success, [Event.readProof, Event.readCrs, Event.readVk])
          | Except.ok false =>
            (Outcome.ok StageExit.failure, [Event.readProof, Event.readCrs, Event.readVk])

/-- The typed errors of the Groth16 zkey parser
(`circom-types/src/groth16/zkey.rs` lines 76-84). -/
inductive ZKeyParserError : Type
  | serializationFailure : ZKeyParserError
  | invalidGroth16Header : ZKeyParserError
  | ioFailure : ZKeyParserError
deriving DecidableEq, Repr

/-- The parse results of the successive `deserialize_uncompressed` reads inside
`HeaderGroth::read` (`zkey.rs` lines 359-390), in stream order. -/
structure HeaderGrothIn : Type where
  n8q : Except Unit Nat
  qVal : Except Unit Nat
  n8r : Except Unit Nat
  rVal : Except Unit Nat
  nVars : Except Unit Nat
  nPublic : Except Unit Nat
  domainSize : Except Unit Nat
  vkParse : Except Unit Unit

/-- The parsed Groth16 zkey header (`zkey.rs` lines 332-347). -/
structure HeaderGroth : Type where
  n8q : Nat
  n8r : Nat
  nVars : Nat
  nPublic : Nat
  domainSize : Nat
  power : Nat
deriving DecidableEq, Repr

/-- Embedding of `HeaderGroth::read` (`zkey.rs` lines 359-390): the base-field
modulus mismatch returns the typed `InvalidGroth16Header` error, while the
scalar-field modulus mismatch aborts through `assert_eq!` (modelled as
`crashed`); deserialization failures become `SerializationError`. -/
def headerGrothRead (qModulus rModulus : Nat) (d : HeaderGrothIn) :
    Outcome ZKeyParserError HeaderGroth :=
  match d.n8q with
  | Except.error _ => Outcome.err ZKeyParserError.serializationFailure
  | Except.ok a =>
    match d.qVal with
    | Except.error _ => Outcome.err ZKeyParserError.serializationFailure
    | Except.ok q =>
      if q ≠ qModulus then Outcome.err ZKeyParserError.invalidGroth16Header
      else
        match d.n8r with
        | Except.error _ => Outcome.err ZKeyParserError.serializationFailure
        | Except.ok b =>
          match d.rVal with
          | Except.error _ => Outcome.err ZKeyParserError.serializationFailure
          | Except.ok r =>
            if r ≠ rModulus then Outcome.crashed
            else
              match d.nVars with
              | Except.error _ => Outcome.err ZKeyParserError.serializationFailure
              | Except.ok nv =>
                match d.nPublic with
                | Except.error _ => Outcome.err ZKeyParserError.serializationFailure
                | Except.ok np =>
                  match d.domainSize with
                  | Except.error _ => Outcome.err ZKeyParserError.serializationFailure
                  | Except.ok ds =>
                    match d.vkParse with
                    | Except.error _ => Outcome.err ZKeyParserError.serializationFailure
                    | Except.ok _ => Outcome.ok ⟨a, b, nv, np, ds, Nat.clog 2 ds⟩

/-- A well-formed contributor file: present on disk and deserializing to the
given map. -/
def mkMergeFile {K V : Type} (m : List (K × V)) : MergeFile K V :=
  { present := true, parse := Except.ok m }

/-- Whether an outcome is a fatal path (typed error or panic), as opposed to a
normal return value. -/
def Outcome.isFatal {ε α : Type} : Outcome ε α → Bool
  | Outcome.ok _ => false
  | Outcome.err _ => true
  | Outcome.crashed => true

/-! ### Helper lemmas about the merge engine -/

theorem keysOf_cons {K V : Type} (p : K × V) (m : List (K × V)) :
    keysOf (p :: m) = p.1 :: keysOf m := rfl

theorem keysOf_append {K V : Type} (a b : List (K × V)) :
    keysOf (a ++ b) = keysOf a ++ keysOf b :=
  List.map_append Prod.fst a b

theorem sortedKeys_keysNodup {K V : Type} [LinearOrder K] {m : List (K × V)}
    (h : SortedKeys m) : KeysNodup m := by
  have : List.Pairwise (fun p q : K × V => p.1 ≠ q.1) m :=
    h.imp (fun hlt => ne_of_lt hlt)
  exact List.pairwise_map.mpr this

theorem insertSorted_spec {K V : Type} [LinearOrder K] (k : K) (v : V) :
    ∀ {l : List (K × V)}, SortedKeys l → k ∉ keysOf l →
      SortedKeys (insertSorted k v l) ∧ List.Perm (insertSorted k v l) ((k, v) :: l) := by
  intro l
  induction l with
  | nil =>
    intro _ _
    exact ⟨List.pairwise_singleton _ _, List.Perm.refl _⟩
  | cons p rest ih =>
    intro hs hk
    rcases List.pairwise_cons.mp hs with ⟨hp, hrest⟩
    rw [keysOf_cons, List.mem_cons] at hk
    rcases not_or.mp hk with ⟨hkp, hkrest⟩
    by_cases h1 : k < p.1
    · rw [insertSorted, if_pos h1]
      refine ⟨List.pairwise_cons.mpr ⟨?_, hs⟩, List.Perm.refl _⟩
      intro q hq
      rcases List.mem_cons.mp hq with hq | hq
      · rw [hq]; exact h1
      · exact h1.trans (hp q hq)
    · have h2 : ¬ k = p.1 := hkp
      rw [insertSorted, if_neg h1, if_neg h2]
      have hpk : p.1 < k := lt_of_le_of_ne (le_of_not_lt h1) (fun he => hkp he.symm)
      obtain ⟨ihs, ihp⟩ := ih hrest hkrest
      constructor
      · refine List.pairwise_cons.mpr ⟨?_, ihs⟩
        intro q hq
        rcases List.mem_cons.mp (ihp.mem_iff.mp hq) with hq | hq
        · rw [hq]; exact hpk
        · exact hp q hq
      · exact (ihp.cons p).trans (List.Perm.swap (k, v) p rest)

theorem insertListChecked_ok {K V : Type} [LinearOrder K] :
    ∀ (m : List (K × V)) {acc : List (K × V)}, SortedKeys acc →
      (keysOf acc ++ keysOf m).Nodup →
      ∃ res, insertListChecked acc m = Except.ok res ∧ SortedKeys res ∧
        List.Perm res (acc ++ m) := by
  intro m
  induction m with
  | nil =>
    intro acc hs _
    exact ⟨acc, rfl, hs, by simp⟩
  | cons p rest ih =>
    intro acc hs hn
    rw [keysOf_cons] at hn
    have hmem : p.1 ∉ keysOf acc := by
      have hdisj := List.disjoint_of_nodup_append hn
      intro hin
      exact hdisj hin (List.mem_cons_self p.1 (keysOf rest))
    have hstep : insertChecked acc p = Except.ok (insertSorted p.1 p.2 acc) := by
      rw [insertChecked, if_neg hmem]
    obtain ⟨hs2, hperm2⟩ := insertSorted_spec p.1 p.2 hs hmem
    have hkeys2 : List.Perm (keysOf (insertSorted p.1 p.2 acc)) (p.1 :: keysOf acc) :=
      hperm2.map Prod.fst
    have hn2 : (keysOf (insertSorted p.1 p.2 acc) ++ keysOf rest).Nodup := by
      have hbig : List.Perm (keysOf (insertSorted p.1 p.2 acc) ++ keysOf rest)
          (keysOf acc ++ p.1 :: keysOf rest) := by
        exact (hkeys2.append_right (keysOf rest)).trans List.perm_middle.symm
      exact hbig.nodup_iff.mpr hn
    obtain ⟨res, hres, hress, hresp⟩ := ih hs2 hn2
    refine ⟨res, ?_, hress, ?_⟩
    · simp only [insertListChecked, hstep]
      exact hres
    · refine hresp.trans ?_
      refine (hperm2.append_right rest).trans ?_
      exact List.perm_middle.symm

theorem insertListChecked_err {K V : Type} [LinearOrder K] :
    ∀ (m : List (K × V)) {acc : List (K × V)}, SortedKeys acc →
      ¬ (keysOf acc ++ keysOf m).Nodup →
      insertListChecked acc m = Except.error Err.duplicateWitness := by
  intro m
  induction m with
  | nil =>
    intro acc hs hn
    exact absurd (by simpa [keysOf, KeysNodup] using sortedKeys_keysNodup hs) hn
  | cons p rest ih =>
    intro acc hs hn
    by_cases hmem : p.1 ∈ keysOf acc
    · simp [insertListChecked, insertChecked, hmem]
    · have hstep : insertChecked acc p = Except.ok (insertSorted p.1 p.2 acc) := by
        rw [insertChecked, if_neg hmem]
      obtain ⟨hs2, hperm2⟩ := insertSorted_spec p.1 p.2 hs hmem
      have hkeys2 : List.Perm (keysOf (insertSorted p.1 p.2 acc)) (p.1 :: keysOf acc) :=
        hperm2.map Prod.fst
      have hbig : List.Perm (keysOf (insertSorted p.1 p.2 acc) ++ keysOf rest)
          (keysOf acc ++ p.1 :: keysOf rest) :=
        (hkeys2.append_right (keysOf rest)).trans List.perm_middle.symm
      have hn2 : ¬ (keysOf (insertSorted p.1 p.2 acc) ++ keysOf rest).Nodup := by
        rw [keysOf_cons] at hn
        intro hgood
        exact hn (hbig.nodup_iff.mp hgood)
      simp only [insertListChecked, hstep]
      exact ih hs2 hn2

theorem mergeLoop_ok {K V : Type} [LinearOrder K] :
    ∀ (maps : List (List (K × V))) {acc : List (K × V)}, SortedKeys acc →
      (keysOf acc ++ keysOf maps.flatten).Nodup →
      ∃ res, mergeLoop acc maps = Except.ok res ∧ SortedKeys res ∧
        List.Perm res (acc ++ maps.flatten) := by
  intro maps
  induction maps with
  | nil =>
    intro acc hs _
    exact ⟨acc, rfl, hs, by simp⟩
  | cons m ms ih =>
    intro acc hs hn
    rw [List.flatten_cons, keysOf_append, ← List.append_assoc] at hn
    have hn1 : (keysOf acc ++ keysOf m).Nodup := hn.of_append_left
    obtain ⟨acc2, hacc2, hs2, hp2⟩ := insertListChecked_ok m hs hn1
    have hkeys2 : List.Perm (keysOf acc2) (keysOf acc ++ keysOf m) := by
      simpa [keysOf] using hp2.map Prod.fst
    have hn2 : (keysOf acc2 ++ keysOf ms.flatten).Nodup :=
      ((hkeys2.append_right (keysOf ms.flatten)).nodup_iff).mpr hn
    obtain ⟨res, hres, hress, hresp⟩ := ih hs2 hn2
    refine ⟨res, ?_, hress, ?_⟩
    · simp only [mergeLoop, hacc2]
      exact hres
    · rw [List.flatten_cons, ← List.append_assoc]
      exact hresp.trans (hp2.append_right ms.flatten)

theorem mergeLoop_err {K V : Type} [LinearOrder K] :
    ∀ (maps : List (List (K × V))) {acc : List (K × V)}, SortedKeys acc →
      ¬ (keysOf acc ++ keysOf maps.flatten).Nodup →
      mergeLoop acc maps = Except.error Err.duplicateWitness := by
  intro maps
  induction maps with
  | nil =>
    intro acc hs hn
    exact absurd (by simpa [keysOf, KeysNodup] using sortedKeys_keysNodup hs) hn
  | cons m ms ih =>
    intro acc hs hn
    rw [List.flatten_cons, keysOf_append, ← List.append_assoc] at hn
    by_cases hn1 : (keysOf acc ++ keysOf m).Nodup
    · obtain ⟨acc2, hacc2, hs2, hp2⟩ := insertListChecked_ok m hs hn1
      have hkeys2 : List.Perm (keysOf acc2) (keysOf acc ++ keysOf m) := by
        simpa [keysOf] using hp2.map Prod.fst
      have hn2 : ¬ (keysOf acc2 ++ keysOf ms.flatten).Nodup := by
        intro hgood
        exact hn (((hkeys2.append_right (keysOf ms.flatten)).nodup_iff).mp hgood)
      simp only [mergeLoop, hacc2]
      exact ih hs2 hn2
    · simp only [mergeLoop, insertListChecked_err m hs hn1]

theorem mergeMaps_ok {K V : Type} [LinearOrder K] (maps : List (List (K × V)))
    (h : KeysNodup maps.flatten) :
    ∃ res, mergeMaps maps = Except.ok res ∧ SortedKeys res ∧
      List.Perm res maps.flatten := by
  have := @mergeLoop_ok K V _ maps [] List.Pairwise.nil (by simpa using h)
  simpa [mergeMaps] using this

theorem mergeMaps_err {K V : Type} [LinearOrder K] (maps : List (List (K × V)))
    (h : ¬ KeysNodup maps.flatten) :
    mergeMaps maps = Except.error Err.duplicateWitness := by
  exact @mergeLoop_err K V _ maps [] List.Pairwise.nil (by simpa using h)

theorem perm_flatten {A : Type} {L1 L2 : List (List A)} (h : List.Perm L1 L2) :
    List.Perm L1.flatten L2.flatten := by
  induction h with
  | nil => exact List.Perm.refl _
  | cons x _ ih =>
    rw [List.flatten_cons, List.flatten_cons]
    exact ih.append_left x
  | swap x y l =>
    rw [List.flatten_cons, List.flatten_cons, List.flatten_cons, List.flatten_cons,
      ← List.append_assoc, ← List.append_assoc]
    exact List.perm_append_comm.append_right l.flatten
  | trans _ _ ih1 ih2 => exact ih1.trans ih2

theorem flattenKeysNodup_iff {K V : Type} [LinearOrder K] (maps : List (List (K × V)))
    (h : ∀ m ∈ maps, KeysNodup m) :
    KeysNodup maps.flatten ↔
      maps.Pairwise (fun a b => (keysOf a).Disjoint (keysOf b)) := by
  unfold KeysNodup keysOf
  rw [List.map_flatten, List.nodup_flatten]
  constructor
  · intro hx
    exact List.pairwise_map.mp hx.2
  · intro hx
    refine ⟨?_, List.pairwise_map.mpr hx⟩
    intro l hl
    rcases List.mem_map.mp hl with ⟨m, hm, rfl⟩
    exact h m hm

theorem keysOf_flatten_perm {K V : Type} {maps1 maps2 : List (List (K × V))}
    (h : List.Perm maps1 maps2) :
    List.Perm (keysOf maps1.flatten) (keysOf maps2.flatten) :=
  (perm_flatten h).map Prod.fst

/-! ### Helper lemmas about translation reassembly and share-file reading -/

theorem rebuildShares_spec {P S T : Type} :
    ∀ (ws : List (SharedBuilderVariable P S)) (ts : List T),
      ts.length = (extractShares ws).length →
      ∃ rs, rebuildShares ws ts = some rs ∧
        rs.length = ws.length ∧
        (∀ (i : Nat) (v : P), ws[i]? = some (SharedBuilderVariable.Public v) →
          rs[i]? = some (SharedBuilderVariable.Public v)) ∧
        (∀ i : Nat, (ws[i]?).map SharedBuilderVariable.isSharedVar
            = (rs[i]?).map SharedBuilderVariable.isSharedVar) ∧
        extractShares rs = ts := by
  intro ws
  induction ws with
  | nil =>
    intro ts ht
    have hts : ts = [] := by
      simpa [extractShares] using List.eq_nil_of_length_eq_zero (by simpa [extractShares] using ht)
    subst hts
    exact ⟨[], rfl, rfl, by intro i v h; simp at h, by intro i; rfl, rfl⟩
  | cons x rest ih =>
    cases x with
    | Public v0 =>
      intro ts ht
      obtain ⟨rs, hrs, hlen, hpub, hshape, hext⟩ := ih ts (by simpa [extractShares] using ht)
      refine ⟨SharedBuilderVariable.Public v0 :: rs, ?_, ?_, ?_, ?_, ?_⟩
      · simp [rebuildShares, hrs]
      · simp [hlen]
      · intro i v h
        cases i with
        | zero => simpa using h
        | succ j =>
          rw [List.getElem?_cons_succ] at h ⊢
          exact hpub j v h
      · intro i
        cases i with
        | zero => simp [SharedBuilderVariable.isSharedVar]
        | succ j =>
          rw [List.getElem?_cons_succ, List.getElem?_cons_succ]
          exact hshape j
      · simpa [extractShares] using hext
    | Shared s0 =>
      intro ts ht
      cases ts with
      | nil => simp [extractShares] at ht
      | cons t ts2 =>
        obtain ⟨rs, hrs, hlen, hpub, hshape, hext⟩ := ih ts2 (by simpa [extractShares] using ht)
        refine ⟨SharedBuilderVariable.Shared t :: rs, ?_, ?_, ?_, ?_, ?_⟩
        · simp [rebuildShares, hrs]
        · simp [hlen]
        · intro i v h
          cases i with
          | zero => simp at h
          | succ j =>
            rw [List.getElem?_cons_succ] at h ⊢
            exact hpub j v h
        · intro i
          cases i with
          | zero => simp [SharedBuilderVariable.isSharedVar]
          | succ j =>
            rw [List.getElem?_cons_succ, List.getElem?_cons_succ]
            exact hshape j
        · simpa [extractShares] using hext

theorem readShares_mk {K V : Type} :
    ∀ (maps : List (List (K × V))) (i : Nat),
      readShares i (maps.map mkMergeFile) =
        (Except.ok maps, (List.range' i maps.length).map Event.readInput) := by
  intro maps
  induction maps with
  | nil => intro i; rfl
  | cons m ms ih =>
    intro i
    simp [readShares, mkMergeFile, ih (i + 1), List.range'_succ]

/-! ### Claim theorems -/

/-- Claim C4: merging named share maps fails with `TooFewContributors` when
fewer than two contributor maps are supplied; with at least two maps it fails
with the duplicate-key error whenever any key occurs in more than one
contributor map, and otherwise returns exactly the union of the disjoint maps
(every input entry appears exactly once, no key is ever overwritten). -/
theorem c4_merge_contract {K V : Type} [LinearOrder K] (maps : List (List (K × V)))
    (hwf : ∀ m ∈ maps, SortedKeys m) :
    (maps.length < 2 →
      run_merge_input_shares MPCProtocol.REP3 (maps.map mkMergeFile)
        = (Except.error Err.tooFewShares, [])) ∧
    (2 ≤ maps.length →
      (¬ maps.Pairwise (fun a b => (keysOf a).Disjoint (keysOf b)) →
        (run_merge_input_shares MPCProtocol.REP3 (maps.map mkMergeFile)).1
          = Except.error Err.duplicateWitness) ∧
      (maps.Pairwise (fun a b => (keysOf a).Disjoint (keysOf b)) →
        ∃ res, (run_merge_input_shares MPCProtocol.REP3 (maps.map mkMergeFile)).1
            = Except.ok res ∧ SortedKeys res ∧ List.Perm res maps.flatten)) := by
  have hkn : ∀ m ∈ maps, KeysNodup m := fun m hm => sortedKeys_keysNodup (hwf m hm)
  constructor
  · intro hlt
    simp [run_merge_input_shares, List.length_map, hlt]
  · intro hge
    have hnlt : ¬ (maps.length < 2) := Nat.not_lt.mpr hge
    have hall : ((maps.map mkMergeFile).all fun f => f.present) = true := by
      simp [mkMergeFile]
    constructor
    · intro hdup
      have hnd : ¬ KeysNodup maps.flatten := fun hk =>
        hdup ((flattenKeysNodup_iff maps hkn).mp hk)
      have herr := mergeMaps_err maps hnd
      simp [run_merge_input_shares, List.length_map, hnlt, hall, readShares_mk, herr]
    · intro hdisj
      have hnd : KeysNodup maps.flatten := (flattenKeysNodup_iff maps hkn).mpr hdisj
      obtain ⟨res, hres, hs, hp⟩ := mergeMaps_ok maps hnd
      refine ⟨res, ?_, hs, hp⟩
      simp [run_merge_input_shares, List.length_map, hnlt, hall, readShares_mk, hres]

/-- Claim C4 witness: two disjoint singleton contributor maps. -/
theorem c4_merge_contract_witness :
    (([[(1, 10)], [(2, 20)]] : List (List (Nat × Nat))).length < 2 →
      run_merge_input_shares MPCProtocol.REP3
          (([[(1, 10)], [(2, 20)]] : List (List (Nat × Nat))).map mkMergeFile)
        = (Except.error Err.tooFewShares, [])) ∧
    (2 ≤ ([[(1, 10)], [(2, 20)]] : List (List (Nat × Nat))).length →
      (¬ ([[(1, 10)], [(2, 20)]] : List (List (Nat × Nat))).Pairwise
            (fun a b => (keysOf a).Disjoint (keysOf b)) →
        (run_merge_input_shares MPCProtocol.REP3
            (([[(1, 10)], [(2, 20)]] : List (List (Nat × Nat))).map mkMergeFile)).1
          = Except.error Err.duplicateWitness) ∧
      (([[(1, 10)], [(2, 20)]] : List (List (Nat × Nat))).Pairwise
          (fun a b => (keysOf a).Disjoint (keysOf b)) →
        ∃ res, (run_merge_input_shares MPCProtocol.REP3
              (([[(1, 10)], [(2, 20)]] : List (List (Nat × Nat))).map mkMergeFile)).1
            = Except.ok res ∧ SortedKeys res ∧
          List.Perm res ([[(1, 10)], [(2, 20)]] : List (List (Nat × Nat))).flatten)) :=
  c4_merge_contract [[(1, 10)], [(2, 20)]] (by
    intro m hm
    simp only [List.mem_cons, List.not_mem_nil, or_false] at hm
    rcases hm with rfl | rfl
    · exact List.pairwise_singleton _ _
    · exact List.pairwise_singleton _ _)

/-- Claim C7: over contributor maps with unique keys, the merge result is
invariant under reordering the contributors when their key sets are pairwise
disjoint (commutativity and associativity of the union), and when two
contributors share a key the merge fails with the duplicate-key error for
every argument order. -/
theorem c7_merge_order_invariant {K V : Type} [LinearOrder K]
    (maps1 maps2 : List (List (K × V))) (hp : List.Perm maps1 maps2)
    (hwf : ∀ m ∈ maps1, SortedKeys m) :
    (maps1.Pairwise (fun a b => (keysOf a).Disjoint (keysOf b)) →
      mergeMaps maps1 = mergeMaps maps2) ∧
    (¬ maps1.Pairwise (fun a b => (keysOf a).Disjoint (keysOf b)) →
      mergeMaps maps1 = Except.error Err.duplicateWitness ∧
        mergeMaps maps2 = Except.error Err.duplicateWitness) := by
  have hkn1 : ∀ m ∈ maps1, KeysNodup m := fun m hm => sortedKeys_keysNodup (hwf m hm)
  have hkn2 : ∀ m ∈ maps2, KeysNodup m := fun m hm => hkn1 m (hp.mem_iff.mpr hm)
  have hkperm : List.Perm (keysOf maps1.flatten) (keysOf maps2.flatten) :=
    keysOf_flatten_perm hp
  constructor
  · intro hdisj
    have h1 : KeysNodup maps1.flatten := (flattenKeysNodup_iff maps1 hkn1).mpr hdisj
    have h2 : KeysNodup maps2.flatten := hkperm.nodup_iff.mp h1
    obtain ⟨r1, e1, s1, p1⟩ := mergeMaps_ok maps1 h1
    obtain ⟨r2, e2, s2, p2⟩ := mergeMaps_ok maps2 h2
    haveI : IsAntisymm (K × V) (fun p q => p.1 < q.1) :=
      ⟨fun a b hab hba => absurd (hab.trans hba) (lt_irrefl _)⟩
    have hr : r1 = r2 :=
      List.eq_of_perm_of_sorted (p1.trans ((perm_flatten hp).trans p2.symm)) s1 s2
    rw [e1, e2, hr]
  · intro hdup
    have h1 : ¬ KeysNodup maps1.flatten := fun hk =>
      hdup ((flattenKeysNodup_iff maps1 hkn1).mp hk)
    have h2 : ¬ KeysNodup maps2.flatten := fun hk => h1 (hkperm.nodup_iff.mpr hk)
    exact ⟨mergeMaps_err maps1 h1, mergeMaps_err maps2 h2⟩

/-- Claim C7 witness: swapping two disjoint singleton contributor maps. -/
theorem c7_merge_order_invariant_witness :
    (([[(1, 10)], [(2, 20)]] : List (List (Nat × Nat))).Pairwise
        (fun a b => (keysOf a).Disjoint (keysOf b)) →
      mergeMaps ([[(1, 10)], [(2, 20)]] : List (List (Nat × Nat)))
        = mergeMaps ([[(2, 20)], [(1, 10)]] : List (List (Nat × Nat)))) ∧
    (¬ ([[(1, 10)], [(2, 20)]] : List (List (Nat × Nat))).Pairwise
        (fun a b => (keysOf a).Disjoint (keysOf b)) →
      mergeMaps ([[(1, 10)], [(2, 20)]] : List (List (Nat × Nat)))
          = Except.error Err.duplicateWitness ∧
        mergeMaps ([[(2, 20)], [(1, 10)]] : List (List (Nat × Nat)))
          = Except.error Err.duplicateWitness) :=
  c7_merge_order_invariant [[(1, 10)], [(2, 20)]] [[(2, 20)], [(1, 10)]]
    (List.Perm.swap _ _ _)
    (by
      intro m hm
      simp only [List.mem_cons, List.not_mem_nil, or_false] at hm
      rcases hm with rfl | rfl
      · exact List.pairwise_singleton _ _
      · exact List.pairwise_singleton _ _)

/-- Claim C3: for every input witness-share vector, the translate-witness
stage (when its network sub-protocols succeed) produces an output vector of
the same length in which every `Public` slot of the input appears unchanged as
`Public` at the same index, the `Shared`/`Public` shape of every index is
preserved, and the translated Shamir shares occupy exactly the `Shared`
positions in the same relative order. -/
theorem c3_translate_structure {P S T : Type} (tr : S → T) (inp : TranslateWitnessIn P S)
    (ws : List (SharedBuilderVariable P S))
    (h1 : inp.src = MPCProtocol.REP3) (h2 : inp.tgt = MPCProtocol.SHAMIR)
    (h3 : inp.witnessPresent = true) (h4 : inp.witnessParse = Except.ok ws)
    (h5 : inp.net = Except.ok ()) (h6 : inp.preprocess = Except.ok ())
    (h7 : inp.translateRun = Except.ok ()) :
    ∃ rs, run_translate_witness tr inp
        = (Outcome.ok rs, [Event.readWitness, Event.netConnect, Event.writeOut]) ∧
      rs.length = ws.length ∧
      (∀ (i : Nat) (v : P), ws[i]? = some (SharedBuilderVariable.Public v) →
        rs[i]? = some (SharedBuilderVariable.Public v)) ∧
      (∀ i : Nat, (ws[i]?).map SharedBuilderVariable.isSharedVar
          = (rs[i]?).map SharedBuilderVariable.isSharedVar) ∧
      extractShares rs = translate_primefield_repshare_vec tr (extractShares ws) := by
  obtain ⟨rs, hrs, hlen, hpub, hshape, hext⟩ :=
    rebuildShares_spec ws (translate_primefield_repshare_vec tr (extractShares ws))
      (by simp [translate_primefield_repshare_vec])
  refine ⟨rs, ?_, hlen, hpub, hshape, hext⟩
  simp [run_translate_witness, h1, h2, h3, h4, h5, h6, h7, hrs]

/-- Claim C3 witness: a three-slot vector with a public slot between two
shared slots, translated by adding one to each share. -/
theorem c3_translate_structure_witness :
    ∃ rs, run_translate_witness (fun s : Nat => s + 1)
        ({ src := MPCProtocol.REP3, tgt := MPCProtocol.SHAMIR, witnessPresent := true,
           witnessParse := Except.ok [SharedBuilderVariable.Shared 7,
             SharedBuilderVariable.Public 3, SharedBuilderVariable.Shared 9],
           net := Except.ok (), preprocess := Except.ok (),
           translateRun := Except.ok () } : TranslateWitnessIn Nat Nat)
        = (Outcome.ok rs, [Event.readWitness, Event.netConnect, Event.writeOut]) ∧
      rs.length = ([SharedBuilderVariable.Shared 7, SharedBuilderVariable.Public 3,
        SharedBuilderVariable.Shared 9] : List (SharedBuilderVariable Nat Nat)).length ∧
      (∀ (i : Nat) (v : Nat),
        ([SharedBuilderVariable.Shared 7, SharedBuilderVariable.Public 3,
          SharedBuilderVariable.Shared 9] : List (SharedBuilderVariable Nat Nat))[i]?
            = some (SharedBuilderVariable.Public v) →
        rs[i]? = some (SharedBuilderVariable.Public v)) ∧
      (∀ i : Nat,
        ((([SharedBuilderVariable.Shared 7, SharedBuilderVariable.Public 3,
          SharedBuilderVariable.Shared 9] : List (SharedBuilderVariable Nat Nat))[i]?).map
            SharedBuilderVariable.isSharedVar)
          = (rs[i]?).map SharedBuilderVariable.isSharedVar) ∧
      extractShares rs = translate_primefield_repshare_vec (fun s : Nat => s + 1)
        (extractShares ([SharedBuilderVariable.Shared 7, SharedBuilderVariable.Public 3,
          SharedBuilderVariable.Shared 9] : List (SharedBuilderVariable Nat Nat))) :=
  c3_translate_structure (fun s : Nat => s + 1) _ _ rfl rfl rfl rfl rfl rfl rfl

/-- Claim C5: the translate-witness stage rejects every source/target protocol
pair other than REP3 to SHAMIR with an error, before touching the witness file
and before any network connection is opened (its event trace is empty). -/
theorem c5_translate_guard {P S T : Type} (tr : S → T) (inp : TranslateWitnessIn P S)
    (h : ¬ (inp.src = MPCProtocol.REP3 ∧ inp.tgt = MPCProtocol.SHAMIR)) :
    run_translate_witness tr inp = (Outcome.err Err.onlyRep3ToShamir, []) ∧
      Event.netConnect ∉ (run_translate_witness tr inp).2 := by
  have hcond : inp.src ≠ MPCProtocol.REP3 ∨ inp.tgt ≠ MPCProtocol.SHAMIR := by
    by_contra hc
    push_neg at hc
    exact h ⟨hc.1, hc.2⟩
  have hrun : run_translate_witness tr inp = (Outcome.err Err.onlyRep3ToShamir, []) := by
    simp only [run_translate_witness, if_pos hcond]
  exact ⟨hrun, by rw [hrun]; simp⟩

/-- Claim C5 witness: a SHAMIR-to-SHAMIR translation request is rejected with
an empty event trace. -/
theorem c5_translate_guard_witness :
    run_translate_witness (fun s : Nat => s)
        ({ src := MPCProtocol.SHAMIR, tgt := MPCProtocol.SHAMIR, witnessPresent := true,
           witnessParse := Except.ok [], net := Except.ok (), preprocess := Except.ok (),
           translateRun := Except.ok () } : TranslateWitnessIn Nat Nat)
      = (Outcome.err Err.onlyRep3ToShamir, []) ∧
    Event.netConnect ∉ (run_translate_witness (fun s : Nat => s)
        ({ src := MPCProtocol.SHAMIR, tgt := MPCProtocol.SHAMIR, witnessPresent := true,
           witnessParse := Except.ok [], net := Except.ok (), preprocess := Except.ok (),
           translateRun := Except.ok () } : TranslateWitnessIn Nat Nat)).2 :=
  c5_translate_guard _ _ (by
    intro hc
    exact absurd hc.1 (by decide))

/-- Claim C1 counterexample: a Shamir split-witness invocation with threshold
3 and party count 3 (violating 1 ≤ t < n) does not fail — it performs the
sharing and writes three share files. -/
theorem c1_counterexample :
    run_split_witness (fun _ : List (PubShared Nat) => List.replicate 3 ())
        (fun _ _ n => List.replicate n ())
        ({ witnessPresent := true, circuitPresent := true, outDirPresent := true,
           csParse := Except.ok [], witnessParse := Except.ok [5],
           protocol := MPCProtocol.SHAMIR, t := 3, n := 3 } : SplitWitnessIn Nat)
      = (Except.ok StageExit.success,
          [Event.readCircuit, Event.readWitness, Event.writeShare 0, Event.writeShare 1,
            Event.writeShare 2]) ∧
    Event.writeShare 0 ∈ (run_split_witness (fun _ : List (PubShared Nat) => List.replicate 3 ())
        (fun _ _ n => List.replicate n ())
        ({ witnessPresent := true, circuitPresent := true, outDirPresent := true,
           csParse := Except.ok [], witnessParse := Except.ok [5],
           protocol := MPCProtocol.SHAMIR, t := 3, n := 3 } : SplitWitnessIn Nat)).2 :=
  ⟨rfl, by decide⟩

/-- Claim C1 (amended): under the Shamir scheme the orchestrator performs no
`1 ≤ t < n` validation at all.  A Shamir split-witness invocation with
readable inputs succeeds and writes its share files for every threshold and
party count, and a Shamir generate-proof invocation opens the network
connection for every threshold — the threshold is first consumed by the
Shamir preprocessing, after the connection. -/
theorem c1_amended {F S : Type} (shareRep3Fn : List (PubShared F) → List S)
    (shareShamirFn : List (PubShared F) → Nat → Nat → List S)
    (inp : SplitWitnessIn F) (pubs : List Nat) (w : List F) (cw : List (PubShared F))
    (gin : GenerateProofIn)
    (h1 : inp.protocol = MPCProtocol.SHAMIR)
    (h2 : inp.witnessPresent = true) (h3 : inp.circuitPresent = true)
    (h4 : inp.outDirPresent = true)
    (h5 : inp.csParse = Except.ok pubs) (h6 : inp.witnessParse = Except.ok w)
    (h7 : classifyWitness w pubs = Except.ok cw)
    (g1 : gin.protocol = MPCProtocol.SHAMIR)
    (g2 : gin.witnessPresent = true) (g3 : gin.circuitPresent = true)
    (g4 : gin.crsPresent = true)
    (g5 : gin.witnessOpen = Except.ok ()) (g6 : gin.csParse = Except.ok ())
    (g7 : gin.witnessDeser = Except.ok ()) :
    run_split_witness shareRep3Fn shareShamirFn inp
      = (Except.ok StageExit.success,
          [Event.readCircuit, Event.readWitness]
            ++ writeEvents (shareShamirFn cw inp.t inp.n).length) ∧
    Event.netConnect ∈ (run_generate_proof gin).2 := by
  constructor
  · simp [run_split_witness, h1, h2, h3, h4, h5, h6, h7]
  · obtain ⟨wp, cp, crp, wo, csp, proto, t, wd, net, crsg, prep, prove, outr, pubr⟩ := gin
    simp only at g1 g2 g3 g4 g5 g6 g7
    subst g1 g2 g3 g4 g5 g6 g7
    cases net with
    | error e => simp [run_generate_proof]
    | ok u =>
      cases crsg with
      | none => simp [run_generate_proof]
      | some c =>
        cases hpre : prep t with
        | error e => simp [run_generate_proof, hpre]
        | ok v =>
          cases prove with
          | error e => simp [run_generate_proof, hpre]
          | ok z => simp [run_generate_proof, hpre, proofWrites]

/-- Claim C1 (amended) witness: Shamir split-witness with t = 3, n = 3 and
Shamir generate-proof with t = 0. -/
theorem c1_amended_witness :
    run_split_witness (fun _ : List (PubShared Nat) => List.replicate 3 ())
        (fun _ _ n => List.replicate n ())
        ({ witnessPresent := true, circuitPresent := true, outDirPresent := true,
           csParse := Except.ok [], witnessParse := Except.ok [5],
           protocol := MPCProtocol.SHAMIR, t := 3, n := 3 } : SplitWitnessIn Nat)
      = (Except.ok StageExit.success,
          [Event.readCircuit, Event.readWitness]
            ++ writeEvents ((fun (_ : List (PubShared Nat)) (_ n : Nat) => List.replicate n ())
                [PubShared.Shared 5] 3 3).length) ∧
    Event.netConnect ∈ (run_generate_proof
        { witnessPresent := true, circuitPresent := true, crsPresent := true,
          witnessOpen := Except.ok (), csParse := Except.ok (),
          protocol := MPCProtocol.SHAMIR, t := 0, witnessDeser := Except.ok (),
          net := Except.ok (), crsGet := some (),
          preprocess := fun _ => Except.error Err.preprocessFailed,
          proveRun := Except.ok (), outRequested := true, pubRequested := true }).2 :=
  c1_amended (fun _ : List (PubShared Nat) => List.replicate 3 ())
    (fun _ _ n => List.replicate n ()) _ [] [5] [PubShared.Shared 5] _
    rfl rfl rfl rfl rfl rfl rfl rfl rfl rfl rfl rfl rfl rfl

/-- Claim C2 counterexample: a REP3 split-witness invocation with threshold 2
does fail with the configuration error, but only after the circuit and
witness files have been read and parsed — the scheme check does not run
before file I/O. -/
theorem c2_counterexample :
    run_split_witness (fun _ : List (PubShared Nat) => List.replicate 3 ())
        (fun _ _ n => List.replicate n ())
        ({ witnessPresent := true, circuitPresent := true, outDirPresent := true,
           csParse := Except.ok [], witnessParse := Except.ok [5],
           protocol := MPCProtocol.REP3, t := 2, n := 3 } : SplitWitnessIn Nat)
      = (Except.error Err.rep3ThresholdNotOne, [Event.readCircuit, Event.readWitness]) ∧
    Event.readWitness ∈ (run_split_witness (fun _ : List (PubShared Nat) => List.replicate 3 ())
        (fun _ _ n => List.replicate n ())
        ({ witnessPresent := true, circuitPresent := true, outDirPresent := true,
           csParse := Except.ok [], witnessParse := Except.ok [5],
           protocol := MPCProtocol.REP3, t := 2, n := 3 } : SplitWitnessIn Nat)).2 :=
  ⟨rfl, by decide⟩

/-- Claim C2 (amended): a REP3 split-witness invocation with threshold ≠ 1 or
party count ≠ 3 (and readable inputs) fails with the configuration error
before any sharing work — its event trace is exactly the circuit read and
witness read, with no share file written — but the check runs only after the
witness and circuit files have been read and parsed, not before file I/O. -/
theorem c2_amended {F S : Type} (shareRep3Fn : List (PubShared F) → List S)
    (shareShamirFn : List (PubShared F) → Nat → Nat → List S)
    (inp : SplitWitnessIn F) (pubs : List Nat) (w : List F) (cw : List (PubShared F))
    (h1 : inp.protocol = MPCProtocol.REP3)
    (h2 : inp.witnessPresent = true) (h3 : inp.circuitPresent = true)
    (h4 : inp.outDirPresent = true)
    (h5 : inp.csParse = Except.ok pubs) (h6 : inp.witnessParse = Except.ok w)
    (h7 : classifyWitness w pubs = Except.ok cw)
    (h8 : inp.t ≠ 1 ∨ inp.n ≠ 3) :
    ((run_split_witness shareRep3Fn shareShamirFn inp).1
        = Except.error Err.rep3ThresholdNotOne ∨
      (run_split_witness shareRep3Fn shareShamirFn inp).1
        = Except.error Err.rep3PartiesNotThree) ∧
    (run_split_witness shareRep3Fn shareShamirFn inp).2
      = [Event.readCircuit, Event.readWitness] := by
  by_cases ht : inp.t = 1
  · have hn : inp.n ≠ 3 := by
      rcases h8 with h8 | h8
      · exact absurd ht h8
      · exact h8
    constructor
    · right
      simp [run_split_witness, h1, h2, h3, h4, h5, h6, h7, ht, hn]
    · simp [run_split_witness, h1, h2, h3, h4, h5, h6, h7, ht, hn]
  · constructor
    · left
      simp [run_split_witness, h1, h2, h3, h4, h5, h6, h7, ht]
    · simp [run_split_witness, h1, h2, h3, h4, h5, h6, h7, ht]

/-- Claim C2 (amended) witness: REP3 split-witness with t = 2, n = 3. -/
theorem c2_amended_witness :
    ((run_split_witness (fun _ : List (PubShared Nat) => List.replicate 3 ())
          (fun _ _ n => List.replicate n ())
          ({ witnessPresent := true, circuitPresent := true, outDirPresent := true,
             csParse := Except.ok [], witnessParse := Except.ok [5],
             protocol := MPCProtocol.REP3, t := 2, n := 3 } : SplitWitnessIn Nat)).1
        = Except.error Err.rep3ThresholdNotOne ∨
      (run_split_witness (fun _ : List (PubShared Nat) => List.replicate 3 ())
          (fun _ _ n => List.replicate n ())
          ({ witnessPresent := true, circuitPresent := true, outDirPresent := true,
             csParse := Except.ok [], witnessParse := Except.ok [5],
             protocol := MPCProtocol.REP3, t := 2, n := 3 } : SplitWitnessIn Nat)).1
        = Except.error Err.rep3PartiesNotThree) ∧
    (run_split_witness (fun _ : List (PubShared Nat) => List.replicate 3 ())
        (fun _ _ n => List.replicate n ())
        ({ witnessPresent := true, circuitPresent := true, outDirPresent := true,
           csParse := Except.ok [], witnessParse := Except.ok [5],
           protocol := MPCProtocol.REP3, t := 2, n := 3 } : SplitWitnessIn Nat)).2
      = [Event.readCircuit, Event.readWitness] :=
  c2_amended (fun _ : List (PubShared Nat) => List.replicate 3 ())
    (fun _ _ n => List.replicate n ()) _ [] [5] [PubShared.Shared 5]
    rfl rfl rfl rfl rfl rfl rfl (Or.inl (by decide))

/-- Claim C6: with readable proof, verification-key and CRS artifacts, the
verify stage returns the success exit code exactly when the verifier returns
`true` and the distinct failure exit code exactly when it returns `false`;
the `false` result is a normal (non-fatal) return value, distinguished from
every fatal error or panic outcome. -/
theorem c6_verify_exit {Pf Crs Vkb : Type} (verifyFn : Pf → Vkb → Crs → Except Err Bool)
    (inp : VerifyIn Pf Crs Vkb) (pf : Pf) (crs : Crs) (vkb : Vkb)
    (h1 : inp.proofPresent = true) (h2 : inp.vkPresent = true) (h3 : inp.crsPresent = true)
    (h4 : inp.proofParse = Except.ok pf) (h5 : inp.crsGet = some crs)
    (h6 : inp.vkParse = Except.ok vkb) :
    ((run_verify verifyFn inp).1 = Outcome.ok StageExit.success ↔
      verifyFn pf vkb crs = Except.ok true) ∧
    ((run_verify verifyFn inp).1 = Outcome.ok StageExit.failure ↔
      verifyFn pf vkb crs = Except.ok false) ∧
    (verifyFn pf vkb crs = Except.ok false →
      ((run_verify verifyFn inp).1).isFatal = false ∧
      (run_verify verifyFn inp).1 ≠ Outcome.ok StageExit.success) := by
  cases hv : verifyFn pf vkb crs with
  | error e =>
    refine ⟨?_, ?_, ?_⟩
    · simp [run_verify, h1, h2, h3, h4, h5, h6, hv]
    · simp [run_verify, h1, h2, h3, h4, h5, h6, hv]
    · intro hfalse
      exact absurd hfalse (by simp)
  | ok b =>
    cases b with
    | true =>
      refine ⟨?_, ?_, ?_⟩
      · simp [run_verify, h1, h2, h3, h4, h5, h6, hv]
      · simp [run_verify, h1, h2, h3, h4, h5, h6, hv]
      · intro hfalse
        exact absurd hfalse (by simp)
    | false =>
      refine ⟨?_, ?_, ?_⟩
      · simp [run_verify, h1, h2, h3, h4, h5, h6, hv]
      · simp [run_verify, h1, h2, h3, h4, h5, h6, hv]
      · intro _
        simp [run_verify, h1, h2, h3, h4, h5, h6, hv, Outcome.isFatal]

/-- Claim C6 witness: a verifier that returns `false` on the given artifacts. -/
theorem c6_verify_exit_witness :
    ((run_verify (fun _ _ _ => Except.ok false)
        ({ proofPresent := true, vkPresent := true, crsPresent := true,
           proofParse := Except.ok (), crsGet := some (), vkParse := Except.ok () }
          : VerifyIn Unit Unit Unit)).1 = Outcome.ok StageExit.success ↔
      (fun (_ : Unit) (_ : Unit) (_ : Unit) => (Except.ok false : Except Err Bool)) () () ()
        = Except.ok true) ∧
    ((run_verify (fun _ _ _ => Except.ok false)
        ({ proofPresent := true, vkPresent := true, crsPresent := true,
           proofParse := Except.ok (), crsGet := some (), vkParse := Except.ok () }
          : VerifyIn Unit Unit Unit)).1 = Outcome.ok StageExit.failure ↔
      (fun (_ : Unit) (_ : Unit) (_ : Unit) => (Except.ok false : Except Err Bool)) () () ()
        = Except.ok false) ∧
    ((fun (_ : Unit) (_ : Unit) (_ : Unit) => (Except.ok false : Except Err Bool)) () () ()
        = Except.ok false →
      ((run_verify (fun _ _ _ => Except.ok false)
          ({ proofPresent := true, vkPresent := true, crsPresent := true,
             proofParse := Except.ok (), crsGet := some (), vkParse := Except.ok () }
            : VerifyIn Unit Unit Unit)).1).isFatal = false ∧
      (run_verify (fun _ _ _ => Except.ok false)
          ({ proofPresent := true, vkPresent := true, crsPresent := true,
             proofParse := Except.ok (), crsGet := some (), vkParse := Except.ok () }
            : VerifyIn Unit Unit Unit)).1 ≠ Outcome.ok StageExit.success) :=
  c6_verify_exit (fun _ _ _ => Except.ok false) _ () () () rfl rfl rfl rfl rfl rfl

/-- Claim C8: the public-input listing maps the public witness slots to
decimal strings in input order (same length, slot i rendered from slot i), and
a slot holding the additive identity of the field is rendered as the literal
string `"0"`. -/
theorem c8_public_input_strings (xs : List FrBn) (i : Nat) (v : FrBn)
    (h : xs[i]? = some v) :
    (publicInputAsStrings xs).length = xs.length ∧
    (publicInputAsStrings xs)[i]? = some (if v = 0 then "0" else Nat.repr v.val) ∧
    (v = 0 → (publicInputAsStrings xs)[i]? = some "0") := by
  refine ⟨List.length_map xs fieldString, ?_, ?_⟩
  · rw [publicInputAsStrings, List.getElem?_map, h]
    rfl
  · intro hv
    rw [publicInputAsStrings, List.getElem?_map, h, hv]
    simp [fieldString]

/-- Claim C8 witness: a singleton listing holding the additive identity. -/
theorem c8_public_input_strings_witness :
    (publicInputAsStrings [(0 : FrBn)]).length = [(0 : FrBn)].length ∧
    (publicInputAsStrings [(0 : FrBn)])[0]?
      = some (if (0 : FrBn) = 0 then "0" else Nat.repr (0 : FrBn).val) ∧
    ((0 : FrBn) = 0 → (publicInputAsStrings [(0 : FrBn)])[0]? = some "0") :=
  c8_public_input_strings [(0 : FrBn)] 0 0 rfl

/-- Claim C9: the split-input, merge-input-shares and generate-witness stages
each reject every protocol other than REP3 with an error and an empty event
trace — no input file is opened or read and no output artifact is produced;
in particular under SHAMIR these three stages always fail. -/
theorem c9_rep3_only_stages {F S K V : Type} [LinearOrder K]
    (shareInputFn : List F → List S) (sin : SplitInputIn F)
    (mproto : MPCProtocol) (files : List (MergeFile K V)) (gin : GenerateWitnessIn)
    (h1 : sin.protocol ≠ MPCProtocol.REP3) (h2 : mproto ≠ MPCProtocol.REP3)
    (h3 : gin.protocol ≠ MPCProtocol.REP3) :
    run_split_input shareInputFn sin = (Except.error Err.onlyRep3SplitInput, []) ∧
    run_merge_input_shares mproto files = (Except.error Err.onlyRep3MergeInput, []) ∧
    run_generate_witness gin = (Except.error Err.onlyRep3GenerateWitness, []) := by
  refine ⟨?_, ?_, ?_⟩
  · simp only [run_split_input, if_pos h1]
  · simp only [run_merge_input_shares, if_pos h2]
  · simp only [run_generate_witness, if_pos h3]

/-- Claim C9 witness: the three stages invoked under SHAMIR. -/
theorem c9_rep3_only_stages_witness :
    run_split_input (fun w : List Nat => [w])
        ({ protocol := MPCProtocol.SHAMIR, inputPresent := true, circuitPresent := true,
           outDirPresent := true, programParse := Except.ok (), abiRead := Except.ok [] }
          : SplitInputIn Nat)
      = (Except.error Err.onlyRep3SplitInput, []) ∧
    run_merge_input_shares MPCProtocol.SHAMIR
        ([mkMergeFile [(1, 10)], mkMergeFile [(2, 20)]] : List (MergeFile Nat Nat))
      = (Except.error Err.onlyRep3MergeInput, []) ∧
    run_generate_witness
        { protocol := MPCProtocol.SHAMIR, inputPresent := true, circuitPresent := true,
          programParse := Except.ok (), shareRead := Except.ok (),
          abiTranslate := Except.ok (), net := Except.ok (), vmCreate := Except.ok (),
          solveRun := Except.ok () }
      = (Except.error Err.onlyRep3GenerateWitness, []) :=
  c9_rep3_only_stages (fun w : List Nat => [w]) _ MPCProtocol.SHAMIR
    ([mkMergeFile [(1, 10)], mkMergeFile [(2, 20)]] : List (MergeFile Nat Nat)) _
    (by decide) (by decide) (by decide)

/-- Claim C10: in the Groth16 zkey header parser, a base-field modulus in the
file differing from the curve's base-field modulus yields the typed error
`InvalidGroth16Header`, a scalar-field modulus mismatch instead aborts through
an assertion panic rather than a typed error, and a header matching both
moduli passes both checks and parses successfully. -/
theorem c10_zkey_header_checks (qModulus rModulus : Nat) (d : HeaderGrothIn)
    (a q b r nv np ds : Nat)
    (h1 : d.n8q = Except.ok a) (h2 : d.qVal = Except.ok q)
    (h3 : d.n8r = Except.ok b) (h4 : d.rVal = Except.ok r)
    (h5 : d.nVars = Except.ok nv) (h6 : d.nPublic = Except.ok np)
    (h7 : d.domainSize = Except.ok ds) (h8 : d.vkParse = Except.ok ()) :
    (q ≠ qModulus → headerGrothRead qModulus rModulus d
        = Outcome.err ZKeyParserError.invalidGroth16Header) ∧
    (q = qModulus → r ≠ rModulus → headerGrothRead qModulus rModulus d = Outcome.crashed) ∧
    (q = qModulus → r = rModulus → headerGrothRead qModulus rModulus d
        = Outcome.ok ⟨a, b, nv, np, ds, Nat.clog 2 ds⟩) := by
  refine ⟨?_, ?_, ?_⟩
  · intro hq
    simp [headerGrothRead, h1, h2, hq]
  · intro hq hr
    simp [headerGrothRead, h1, h2, h3, h4, hq, hr]
  · intro hq hr
    simp [headerGrothRead, h1, h2, h3, h4, h5, h6, h7, h8, hq, hr]

/-- Claim C10 witness: a header stream whose base-field modulus matches and
whose scalar-field modulus mismatches. -/
theorem c10_zkey_header_checks_witness :
    ((7 : Nat) ≠ 7 → headerGrothRead 7 5
        { n8q := Except.ok 32, qVal := Except.ok 7, n8r := Except.ok 32,
          rVal := Except.ok 3, nVars := Except.ok 4, nPublic := Except.ok 1,
          domainSize := Except.ok 4, vkParse := Except.ok () }
        = Outcome.err ZKeyParserError.invalidGroth16Header) ∧
    ((7 : Nat) = 7 → (3 : Nat) ≠ 5 → headerGrothRead 7 5
        { n8q := Except.ok 32, qVal := Except.ok 7, n8r := Except.ok 32,
          rVal := Except.ok 3, nVars := Except.ok 4, nPublic := Except.ok 1,
          domainSize := Except.ok 4, vkParse := Except.ok () }
        = Outcome.crashed) ∧
    ((7 : Nat) = 7 → (3 : Nat) = 5 → headerGrothRead 7 5
        { n8q := Except.ok 32, qVal := Except.ok 7, n8r := Except.ok 32,
          rVal := Except.ok 3, nVars := Except.ok 4, nPublic := Except.ok 1,
          domainSize := Except.ok 4, vkParse := Except.ok () }
        = Outcome.ok ⟨32, 32, 4, 1, 4, Nat.clog 2 4⟩) :=
  c10_zkey_header_checks 7 5 _ 32 7 32 3 4 1 4 rfl rfl rfl rfl rfl rfl rfl rfl
